import Mathlib

/-!
Verification development for the serial_lite library (src/serial.h).

The C++ header is shallowly embedded: the filesystem and device boundaries
(glob, realpath, stat, file reads, open/tcgetattr/tcsetattr, read/write,
usleep) are oracles supplied as explicit environments, every pure piece of
the source is translated to an executable Lean function, machine integers
are Nat/Int with explicit reductions modulo 2^w where the source converts,
and C++ exceptions are the Except monad.  All strings involved are ASCII,
so the List Char model of std::string is index-faithful.
-/

namespace SerialLite

/-- Index of the last occurrence of c in l at position at most bound; this
models std::string::rfind(c, bound), with none standing for std::string::npos. -/
def rfindAt (l : List Char) (c : Char) (bound : Nat) : Option Nat :=
  (((l.enum).filter (fun p => decide (p.1 ≤ bound) && (p.2 == c))).map (fun p => p.1)).getLast?

/-- Index of the last occurrence of c in l, i.e. std::string::rfind(c). -/
def rfindLast (l : List Char) (c : Char) : Option Nat :=
  rfindAt l c l.length

/-- Model of path_found.substr(path_found.rfind('/') + 1, npos) used by
SerialInfo::glob_device: the basename of a glob result.  When rfind misses,
npos + 1 wraps to 0 and the whole string is kept, faithful to size_t arithmetic. -/
def baseAfterSlash (s : String) : String :=
  match rfindLast s.data '/' with
  | none => s
  | some i => String.mk (s.data.drop (i + 1))

/-- Whether l starts with p; models std::string::compare(0, p.length, p) == 0
(a string shorter than p compares unequal, and take then gives a shorter list). -/
def hasPref (l p : List Char) : Bool :=
  l.take p.length == p

/-- Read-only filesystem boundary of the discovery component.  Each field is
one OS facility SerialInfo::ListPort consults. -/
structure FS where
  /-- Combined results of the six glob() calls (patterns /dev/ttyACM*, /dev/ttyS*,
  /dev/ttyUSB*, /dev/tty.*, /dev/cu.*, /dev/rfcomm* with GLOB_APPEND), in order. -/
  globPaths : List String
  /-- realpath(3) resolution; none models a null return (unresolvable link). -/
  realpathOf : String → Option String
  /-- Whether stat(2) succeeds on a path. -/
  statOk : String → Bool
  /-- First line of a file an ifstream can open; none models a failed open.
  SerialInfo::read_line returns the empty string in the none case. -/
  fileLine : String → Option String

/-- Embedding of SerialInfo::glob_device: names of the glob results with the
directory part stripped. -/
def glob_device (fs : FS) : List String :=
  fs.globPaths.map baseAfterSlash

/-- Embedding of SerialInfo::path_exists: empty paths are rejected before
stat(2) is consulted. -/
def path_exists (fs : FS) (path : String) : Bool :=
  if path = "" then false else fs.statOk path

/-- Embedding of SerialInfo::read_line: first line of the file when the
stream opens, the empty string otherwise. -/
def read_line (fs : FS) (file : String) : String :=
  (fs.fileLine file).getD ""

/-- Embedding of SerialInfo::get_sys_device_path: resolve
/sys/class/tty/<name>/device through realpath, then cut one trailing path
component for ttyACM devices and two for ttyUSB devices, exactly as the
substr/rfind arithmetic of the source does (including the size_t wrap of
rfind('/', pos - 1) when pos is 0, and substr(0, npos) keeping the whole
string when rfind misses).  Other device classes leave the path empty.
The result is returned only if path_exists accepts it. -/
def get_sys_device_path (fs : FS) (device_name : String) : String :=
  let device_path := "/sys/class/tty/" ++ device_name ++ "/device"
  let real_device_path := (fs.realpathOf device_path).getD ""
  let l := real_device_path.data
  let sys_device_path : String :=
    if hasPref device_name.data "ttyUSB".data then
      match rfindLast l '/' with
      | none => real_device_path
      | some p1 =>
        let bound := if p1 = 0 then l.length else p1 - 1
        match rfindAt l '/' bound with
        | none => real_device_path
        | some p2 => String.mk (l.take p2)
    else if hasPref device_name.data "ttyACM".data then
      match rfindLast l '/' with
      | none => real_device_path
      | some p1 => String.mk (l.take p1)
    else ""
  if path_exists fs sys_device_path then sys_device_path else ""

/-- Failure modes of std::stoul. -/
inductive StoulError where
  | invalidArgument
  | outOfRange
deriving DecidableEq

/-- Whether a character is a hexadecimal digit, as strtoul accepts in base 16. -/
def isHexDigit16 (c : Char) : Bool :=
  c.isDigit || ('a' ≤ c && c ≤ 'f') || ('A' ≤ c && c ≤ 'F')

/-- Numeric value of a hexadecimal digit character. -/
def hexVal (c : Char) : Nat :=
  if c.isDigit then c.toNat - '0'.toNat
  else if 'a' ≤ c && c ≤ 'f' then c.toNat - 'a'.toNat + 10
  else c.toNat - 'A'.toNat + 10

/-- Embedding of std::stoul(s, nullptr, 16) on an LP64 platform: strtoul
semantics (skip leading whitespace, one optional sign, an optional 0x prefix
consumed only when a hex digit follows, then a maximal run of hex digits),
raising invalid_argument when no digit is converted and out_of_range when
the converted value exceeds ULONG_MAX = 2^64 - 1; a minus sign negates the
value modulo 2^64. -/
def stoul16 (s : String) : Except StoulError Nat :=
  let l0 := s.data.dropWhile (fun c => c.isWhitespace)
  let signed : Bool × List Char :=
    match l0 with
    | '-' :: rest => (true, rest)
    | '+' :: rest => (false, rest)
    | _ => (false, l0)
  let l1 :=
    match signed.2 with
    | '0' :: x :: d :: rest =>
      if (x == 'x' || x == 'X') && isHexDigit16 d then d :: rest
      else '0' :: x :: d :: rest
    | other => other
  let digits := l1.takeWhile isHexDigit16
  if digits.isEmpty then Except.error StoulError.invalidArgument
  else
    let v := digits.foldl (fun acc c => acc * 16 + hexVal c) 0
    if v > 2 ^ 64 - 1 then Except.error StoulError.outOfRange
    else Except.ok (if signed.1 then (2 ^ 64 - v % 2 ^ 64) % 2 ^ 64 else v)

/-- The SerialInfo record.  product_id and vendor_id are C++ unsigned short
fields, kept as Nat values below 2^16 (the source assigns them from stoul
results, truncating modulo 2^16); value-initialization gives the zero and
empty-string defaults of the member initializers. -/
structure SerialInfo where
  port_name : String := ""
  product_id : Nat := 0
  vendor_id : Nat := 0
  product : String := ""
  manufacturer : String := ""
  serial_number : String := ""
deriving DecidableEq

/-- One iteration of the loop body of SerialInfo::ListPort for a single
device name: resolve the sys device path; when it is non-empty, parse the
two numeric id files with stoul (whose exceptions propagate through Except)
and read the three text attribute files; otherwise keep the defaults. -/
def portInfo (fs : FS) (name : String) : Except StoulError SerialInfo :=
  let sys := get_sys_device_path fs name
  if sys = "" then Except.ok { port_name := name }
  else do
    let pid ← stoul16 (read_line fs (sys ++ "/idProduct"))
    let vid ← stoul16 (read_line fs (sys ++ "/idVendor"))
    Except.ok
      { port_name := name
        product_id := pid % 2 ^ 16
        vendor_id := vid % 2 ^ 16
        product := read_line fs (sys ++ "/product")
        manufacturer := read_line fs (sys ++ "/manufacturer")
        serial_number := read_line fs (sys ++ "/serial") }

/-- Embedding of SerialInfo::ListPort: glob the device directory, build one
record per name in order.  A stoul exception escapes the whole enumeration,
which the Except error models. -/
def listPort (fs : FS) : Except StoulError (List SerialInfo) :=
  (glob_device fs).mapM (portInfo fs)

/-- Hexadecimal rendering of n as std::hex produces it (lowercase digits),
padded on the left with '0' to at least four characters, as the
setfill('0') << setw(4) << right << hex manipulator chain does. -/
def hex4 (n : Nat) : String :=
  let ds := Nat.toDigits 16 n
  String.mk (List.replicate (4 - ds.length) '0' ++ ds)

/-- The characters operator<<(std::ostream&, const SerialInfo&) inserts into
the stream. -/
def renderSerialInfo (s : SerialInfo) : String :=
  s.port_name ++ ", " ++ hex4 s.product_id ++ ":" ++ hex4 s.vendor_id ++ ", "
    ++ s.manufacturer ++ ", " ++ s.product ++ ", " ++ s.serial_number

/-- Full effect of operator<< for SerialInfo: the inserted characters, and
the value produced by a return statement on the control path taken -- the
source body contains no return statement at all, so no path produces one
and the second component is always none (in C++ this is undefined behavior
for a function with a non-void return type). -/
def operatorInsert (s : SerialInfo) : String × Option Unit :=
  (renderSerialInfo s, none)

/-! The SerialChannel side.  termios flag constants carry their Linux/glibc
numeric values; tcflag_t is a 32-bit unsigned integer, so clearing a mask
is a bitwise and with the 32-bit complement. -/

def CLOCAL : Nat := 2048
def CREAD : Nat := 128
def CSIZE : Nat := 48
def CS7 : Nat := 32
def CS8 : Nat := 48
def PARENB : Nat := 256
def PARODD : Nat := 512
def CSTOPB : Nat := 64
def ICANON : Nat := 2
def ECHO : Nat := 8
def ECHOE : Nat := 16
def ISIG : Nat := 1
def OPOST : Nat := 1
def B4800 : Nat := 12
def B9600 : Nat := 13
def B19200 : Nat := 14
def B38400 : Nat := 15
def B57600 : Nat := 4097
def B115200 : Nat := 4098
def B230400 : Nat := 4099
def B921600 : Nat := 4103

/-- All ones in 32 bits, the width of tcflag_t. -/
def tcflagMask : Nat := 4294967295

/-- flags &= ~mask on a 32-bit tcflag_t. -/
def clearFlags (f m : Nat) : Nat :=
  f &&& (tcflagMask ^^^ m)

/-- The termios fields ConfigDevice touches; memset(&new_termios_, 0, ...)
gives the all-zero defaults.  vtime and vmin stand for c_cc[VTIME] and
c_cc[VMIN]; c_ispeed/c_ospeed hold the Bnnnn speed code installed by
cfsetispeed/cfsetospeed, with 0 (the memset value, B0) meaning unset. -/
structure Termios where
  c_cflag : Nat := 0
  c_lflag : Nat := 0
  c_oflag : Nat := 0
  c_ispeed : Nat := 0
  c_ospeed : Nat := 0
  vtime : Nat := 0
  vmin : Nat := 0
deriving DecidableEq

/-- The constructor-set fields of class Serial; the constructor always uses
8 data bits, parity 'N' and 1 stop bit. -/
structure SerialChannel where
  port_name : String
  baudrate : Int
  data_bits : Nat := 8
  parity_bits : Char := 'N'
  stop_bits : Nat := 1

/-- The Serial(port_name, baudrate) constructor. -/
def mkSerial (port_name : String) (baudrate : Int) : SerialChannel :=
  { port_name := port_name, baudrate := baudrate }

/-- Outcomes of the device-boundary calls Init/ConfigDevice make, fixed for
one invocation: the descriptor returned by open(2) (negative on failure) and
whether tcgetattr/tcsetattr succeed. -/
structure OsOracle where
  openFd : Int
  tcgetattrOk : Bool
  tcsetattrOk : Bool

/-- The st_baud constant table of ConfigDevice: eight entries. -/
def st_baud : List Nat :=
  [B4800, B9600, B19200, B38400, B57600, B115200, B230400, B921600]

/-- The std_rate constant table of ConfigDevice: eleven entries. -/
def std_rate : List Int :=
  [4800, 9600, 19200, 38400, 57600, 115200, 230400, 921600, 1000000, 1152000, 3000000]

/-- The baud scan of ConfigDevice: j = sizeof(std_rate)/4 = 11 iterations,
breaking at the first i with std_rate[i] == baudrate_. -/
def matchIndex (baudrate : Int) : Option Nat :=
  std_rate.findIdx? (fun r => r == baudrate)

/-- Result of ConfigDevice.  oobRead i marks the undefined behavior of
reading st_baud[i] past the end of the eight-entry table; the other
constructors carry the new_termios_ value as built when the function leaves. -/
inductive ConfigOutcome where
  | getattrFailed
  | oobRead (i : Nat)
  | setattrFailed (t : Termios)
  | configured (t : Termios)
deriving DecidableEq

/-- Tail of ConfigDevice after the baud scan: stop bits, VTIME/VMIN, raw
mode (clear ICANON|ECHO|ECHOE|ISIG and OPOST), tcflush (pure side effect on
the kernel fifo, no state here), then tcsetattr deciding success. -/
def configTail (ch : SerialChannel) (o : OsOracle) (t4 : Termios) : ConfigOutcome :=
  let t5 :=
    if ch.stop_bits = 1 then { t4 with c_cflag := clearFlags t4.c_cflag CSTOPB }
    else if ch.stop_bits = 2 then { t4 with c_cflag := t4.c_cflag ||| CSTOPB }
    else { t4 with c_cflag := clearFlags t4.c_cflag CSTOPB }
  let t6 := { t5 with vtime := 1, vmin := 18 }
  let t7 := { t6 with c_lflag := clearFlags t6.c_lflag (((ICANON ||| ECHO) ||| ECHOE) ||| ISIG) }
  let t8 := { t7 with c_oflag := clearFlags t7.c_oflag OPOST }
  if o.tcsetattrOk then ConfigOutcome.configured t8 else ConfigOutcome.setattrFailed t8

/-- Embedding of Serial::ConfigDevice: tcgetattr (only its success matters,
the saved old_termios_ is never consulted), memset new_termios_ to zero,
CLOCAL|CREAD, the data-bit switch, the parity switch, the baud scan indexing
st_baud at the matching std_rate index, then configTail. -/
def configDevice (ch : SerialChannel) (o : OsOracle) : ConfigOutcome :=
  if o.tcgetattrOk then
    let t0 : Termios := {}
    let t1 := { t0 with c_cflag := t0.c_cflag ||| (CLOCAL ||| CREAD) }
    let t2 := { t1 with c_cflag := clearFlags t1.c_cflag CSIZE }
    let t3 :=
      if ch.data_bits = 7 then { t2 with c_cflag := t2.c_cflag ||| CS7 }
      else if ch.data_bits = 8 then { t2 with c_cflag := t2.c_cflag ||| CS8 }
      else { t2 with c_cflag := t2.c_cflag ||| CS8 }
    let t4 :=
      if ch.parity_bits = 'O' ∨ ch.parity_bits = 'o' then
        { t3 with c_cflag := (t3.c_cflag ||| PARENB) ||| PARODD }
      else if ch.parity_bits = 'E' ∨ ch.parity_bits = 'e' then
        { t3 with c_cflag := clearFlags (t3.c_cflag ||| PARENB) PARODD }
      else { t3 with c_cflag := clearFlags t3.c_cflag PARENB }
    match matchIndex ch.baudrate with
    | none => configTail ch o t4
    | some i =>
      match st_baud.get? i with
      | none => ConfigOutcome.oobRead i
      | some b => configTail ch o { t4 with c_ispeed := b, c_ospeed := b }
  else ConfigOutcome.getattrFailed

/-- Mutable state of a Serial object: the descriptor member serial_fd_ and
the new_termios_ member (the fd_set member is write-only in the source and
not modeled). -/
structure SerialState where
  serial_fd : Int
  new_termios : Termios := {}
deriving DecidableEq

/-- System calls the channel issues, for stating which calls an operation
makes and in what order.  readCall and initAttempt carry the index of the
corresponding oracle entry. -/
inductive SysEvent where
  | openCall
  | closeCall
  | readCall (idx : Nat) (len : Nat)
  | usleepCall (usec : Nat)
  | initAttempt (idx : Nat)
  | writeCall (len : Nat)
deriving DecidableEq

/-- Embedding of Serial::OpenDevice: store the open(2) result in serial_fd_,
report failure when it is negative. -/
def openDevice (o : OsOracle) (st : SerialState) : Bool × SerialState :=
  let st1 := { st with serial_fd := o.openFd }
  if o.openFd < 0 then (false, st1) else (true, st1)

/-- Embedding of Serial::CloseDevice: close(2) the descriptor (whatever it
holds), then mark it invalid.  Always reports true. -/
def closeDevice (st : SerialState) : Bool × SerialState :=
  (true, { st with serial_fd := -1 })

/-- Embedding of Serial::Init: the port_name_.c_str() == nullptr guard of
the source is statically false (c_str never returns null) and is dropped;
then OpenDevice() && ConfigDevice() with short-circuiting, releasing the
handle through CloseDevice on any failure.  The oobRead outcome of
ConfigDevice is undefined behavior and yields none.  The trace lists the
open and close calls made. -/
def init (ch : SerialChannel) (o : OsOracle) (st : SerialState) :
    Option (Bool × SerialState × List SysEvent) :=
  let p := openDevice o st
  if p.1 then
    match configDevice ch o with
    | ConfigOutcome.configured t =>
      some (true, { p.2 with new_termios := t }, [SysEvent.openCall])
    | ConfigOutcome.getattrFailed =>
      some (false, (closeDevice p.2).2, [SysEvent.openCall, SysEvent.closeCall])
    | ConfigOutcome.setattrFailed t =>
      some (false, (closeDevice { p.2 with new_termios := t }).2,
        [SysEvent.openCall, SysEvent.closeCall])
    | ConfigOutcome.oobRead _ => none
  else
    some (false, (closeDevice p.2).2, [SysEvent.openCall, SysEvent.closeCall])

/-- Reinterpretation of an Int result as the size_t (64-bit unsigned) value
Serial::Read and Serial::Write return; read(2) and write(2) return ssize_t,
and -1 becomes 2^64 - 1. -/
def size_t_of (r : Int) : Nat :=
  (r % (2 : Int) ^ 64).toNat

/-- Environment of one Serial::Read call: the n-th read(2) result and the
n-th Init() outcome (Init is embedded separately; at this boundary only its
success enters the control flow). -/
structure ReadEnv where
  reads : Nat → Int
  inits : Nat → Bool

/-- The inner loop of Serial::Read: while (!Init()) usleep(500000).  Fuel
bounds the number of modeled iterations; none means the loop is still
running after that many attempts (the source loop is unbounded).  On
success, returns the next unused Init index; the trace interleaves the
attempts with the fixed 500000 microsecond pauses after each failure. -/
def initLoop (env : ReadEnv) : Nat → Nat → Option Nat × List SysEvent
  | _, 0 => (none, [])
  | iI, fuel + 1 =>
    if env.inits iI then (some (iI + 1), [SysEvent.initAttempt iI])
    else
      let r := initLoop env (iI + 1) fuel
      (r.1, SysEvent.initAttempt iI :: SysEvent.usleepCall 500000 :: r.2)

/-- The body of Serial::Read after the null check: ret = read(...); while
(ret == 0) { while (!Init()) usleep(500000); ret = read(...); } return ret.
rI and iI index the next unused oracle entries; none models the loop still
running when the fuel is exhausted. -/
def readRetry (env : ReadEnv) (len : Nat) : Nat → Nat → Nat → Option Nat × List SysEvent
  | _, _, 0 => (none, [])
  | rI, iI, fuel + 1 =>
    if env.reads rI = 0 then
      match initLoop env iI fuel with
      | (none, tr) => (none, SysEvent.readCall rI len :: tr)
      | (some iI2, tr) =>
        let r2 := readRetry env len (rI + 1) iI2 fuel
        (r2.1, SysEvent.readCall rI len :: (tr ++ r2.2))
    else (some (size_t_of (env.reads rI)), [SysEvent.readCall rI len])

/-- Embedding of Serial::Read: a null buffer returns (size_t)(-1) before any
system call (empty trace); otherwise the read-retry loop runs. -/
def readOp (env : ReadEnv) (bufNull : Bool) (len fuel : Nat) : Option Nat × List SysEvent :=
  if bufNull then (some (size_t_of (-1)), [])
  else readRetry env len 0 0 fuel

/-- Embedding of Serial::Write: exactly one write(2) call whose result wr
(ssize_t: a byte count or -1) is returned reinterpreted as size_t. -/
def writeOp (wr : Int) (len : Nat) : Nat × List SysEvent :=
  (size_t_of wr, [SysEvent.writeCall len])

/-- A ReadEnv in which every read(2) yields zero bytes and every Init()
succeeds: the device keeps disappearing the instant it is reopened. -/
def allZeroReads : ReadEnv :=
  { reads := fun _ => 0, inits := fun _ => true }

/-! Concrete environments used by the claim theorems. -/

/-- A filesystem with one ttyACM device whose identity subtree resolves and
whose five attribute files are all present; idProduct holds "1a2b" and
idVendor holds "0003". -/
def fs8 : FS where
  globPaths := ["/dev/ttyACM0"]
  realpathOf := fun p =>
    if p = "/sys/class/tty/ttyACM0/device" then some "/sys/devices/usb1/1-1/1-1:1.0" else none
  statOk := fun p => p = "/sys/devices/usb1/1-1"
  fileLine := fun p =>
    if p = "/sys/devices/usb1/1-1/idProduct" then some "1a2b"
    else if p = "/sys/devices/usb1/1-1/idVendor" then some "0003"
    else if p = "/sys/devices/usb1/1-1/product" then some "ProdX"
    else if p = "/sys/devices/usb1/1-1/manufacturer" then some "M"
    else if p = "/sys/devices/usb1/1-1/serial" then some "SN1"
    else none

/-- The record ListPort builds from fs8. -/
def rec8 : SerialInfo :=
  { port_name := "ttyACM0", product_id := 6699, vendor_id := 3,
    product := "ProdX", manufacturer := "M", serial_number := "SN1" }

/-- Like fs8, but the numeric attribute files are absent: the identity
subtree path still resolves and exists, yet reading idProduct gives an
empty string. -/
def fs1 : FS :=
  { fs8 with fileLine := fun p =>
      if p = "/sys/devices/usb1/1-1/product" then some "ProdX"
      else if p = "/sys/devices/usb1/1-1/manufacturer" then some "M"
      else if p = "/sys/devices/usb1/1-1/serial" then some "SN1"
      else none }

/-- A record holding the fully qualified device path in its port_name
field, with the ids of the rendering example. -/
def arduinoRec : SerialInfo :=
  { port_name := "/dev/ttyACM0", product_id := 16, vendor_id := 9025,
    product := "ProdY", manufacturer := "Arduino", serial_number := "SN9" }

/-- A device boundary on which open(2) returns descriptor 3 and both
termios calls succeed. -/
def oGood : OsOracle := { openFd := 3, tcgetattrOk := true, tcsetattrOk := true }

/-- A device boundary on which open(2) fails (nonexistent device path). -/
def oFail : OsOracle := { openFd := -1, tcgetattrOk := true, tcsetattrOk := true }

/-- A device boundary on which open succeeds but tcsetattr rejects the
configuration. -/
def oCfgFail : OsOracle := { openFd := 3, tcgetattrOk := true, tcsetattrOk := false }

/-- A channel state before Init. -/
def st0 : SerialState := { serial_fd := -1 }

/-- A read environment whose first read(2) yields zero bytes, after which
re-initialization succeeds at once and the next read yields 7 bytes. -/
def envW : ReadEnv :=
  { reads := fun n => if n = 0 then 0 else 7, inits := fun _ => true }

/-! Helper lemmas. -/

/-- The size_t reinterpretation of a nonzero ssize_t value is nonzero. -/
theorem size_t_of_ne_zero (r : Int) (h1 : -1 ≤ r) (h2 : r < 2 ^ 63) (h3 : r ≠ 0) :
    size_t_of r ≠ 0 := by
  unfold size_t_of
  omega

/-- Whenever the read-retry loop terminates with a value, that value is the
size_t image of a nonzero read(2) result, hence nonzero. -/
theorem readRetry_ne_zero (env : ReadEnv)
    (hb : ∀ n, -1 ≤ env.reads n ∧ env.reads n < 2 ^ 63) (len : Nat) :
    ∀ fuel rI iI v tr, readRetry env len rI iI fuel = (some v, tr) → v ≠ 0 := by
  intro fuel
  induction fuel with
  | zero => intro rI iI v tr h; simp [readRetry] at h
  | succ f ih =>
    intro rI iI v tr h
    by_cases hr : env.reads rI = 0
    · rcases hI : initLoop env iI f with ⟨oi, ti⟩
      cases oi with
      | none => simp [readRetry, hr, hI] at h
      | some iI2 =>
        simp only [readRetry, hr, if_pos, hI, if_true] at h
        simp only [Prod.mk.injEq] at h
        exact ih (rI + 1) iI2 v (readRetry env len (rI + 1) iI2 f).2 (by rw [← h.1])
    · simp only [readRetry, hr, if_neg, if_false, Prod.mk.injEq] at h
      rcases h with ⟨h1, _⟩
      rw [← Option.some.inj h1]
      exact size_t_of_ne_zero (env.reads rI) (hb rI).1 (hb rI).2 hr

/-- In the environment where every read yields zero and every Init
succeeds, the loop never produces a result, at any fuel: the source loop
runs forever. -/
theorem readRetry_allZero (len : Nat) :
    ∀ fuel rI iI, (readRetry allZeroReads len rI iI fuel).1 = none := by
  intro fuel
  induction fuel with
  | zero => intro rI iI; simp [readRetry]
  | succ f ih =>
    intro rI iI
    cases f with
    | zero => simp [readRetry, initLoop, allZeroReads]
    | succ g =>
      have hI : initLoop allZeroReads iI (g + 1) =
          (some (iI + 1), [SysEvent.initAttempt iI]) := by
        simp [initLoop, allZeroReads]
      simp only [readRetry, allZeroReads, hI, if_true, if_pos]
      exact ih (rI + 1) (iI + 1)

/-- Every pause the re-initialization loop issues is the fixed 500000
microseconds of the source. -/
theorem initLoop_pause (env : ReadEnv) :
    ∀ fuel iI u, SysEvent.usleepCall u ∈ (initLoop env iI fuel).2 → u = 500000 := by
  intro fuel
  induction fuel with
  | zero => intro iI u h; simp [initLoop] at h
  | succ f ih =>
    intro iI u h
    by_cases hi : env.inits iI
    · simp [initLoop, hi] at h
    · simp [initLoop, hi] at h
      rcases h with h | h
      · exact h
      · exact ih (iI + 1) u h

/-- Every pause Serial::Read issues is the fixed 500000 microseconds. -/
theorem readRetry_pause (env : ReadEnv) (len : Nat) :
    ∀ fuel rI iI u, SysEvent.usleepCall u ∈ (readRetry env len rI iI fuel).2 → u = 500000 := by
  intro fuel
  induction fuel with
  | zero => intro rI iI u h; simp [readRetry] at h
  | succ f ih =>
    intro rI iI u h
    by_cases hr : env.reads rI = 0
    · rcases hI : initLoop env iI f with ⟨oi, ti⟩
      cases oi with
      | none =>
        simp only [readRetry, hr, if_pos, hI, if_true, List.mem_cons] at h
        rcases h with h | h
        · exact absurd h (by simp)
        · exact initLoop_pause env f iI u (by rw [hI]; exact h)
      | some iI2 =>
        simp only [readRetry, hr, if_pos, hI, if_true, List.mem_cons, List.mem_append] at h
        rcases h with h | h | h
        · exact absurd h (by simp)
        · exact initLoop_pause env f iI u (by rw [hI]; exact h)
        · exact ih (rI + 1) iI2 u h
    · simp [readRetry, hr] at h

/-! Claim theorems. -/

/-- Claim C1 (code_bug): the spec demands that for a device whose resolved
identity subtree exists but whose idProduct file is missing or empty, the
parse failure on the empty string yields zero silently and the enumeration
completes.  The code instead calls std::stoul on the empty string, which
throws std::invalid_argument, and the exception propagates out of
ListPort: on fs1 the subtree resolves and exists, read_line on idProduct
gives the empty string, and listPort ends in the invalid_argument error
rather than a record list. -/
theorem listPort_missing_idProduct_raises :
    get_sys_device_path fs1 "ttyACM0" = "/sys/devices/usb1/1-1"
    ∧ read_line fs1 "/sys/devices/usb1/1-1/idProduct" = ""
    ∧ stoul16 "" = Except.error StoulError.invalidArgument
    ∧ listPort fs1 = Except.error StoulError.invalidArgument :=
  ⟨rfl, rfl, rfl, rfl⟩

/-- Claim C2 (confirmed): with a non-null buffer, whenever Read returns a
value it is nonzero (read results are ssize_t values, -1 ≤ r < 2^63); in
the environment where every read yields zero bytes the loop never returns,
at any fuel bound, re-attempting without upper bound; and every pause
between re-initialization attempts is the fixed 500000 microseconds. -/
theorem read_never_returns_zero :
    (∀ env : ReadEnv, (∀ n, -1 ≤ env.reads n ∧ env.reads n < 2 ^ 63) →
      ∀ len fuel v tr, readOp env false len fuel = (some v, tr) → v ≠ 0)
    ∧ (∀ len fuel, (readOp allZeroReads false len fuel).1 = none)
    ∧ (∀ env : ReadEnv, ∀ len fuel u,
        SysEvent.usleepCall u ∈ (readOp env false len fuel).2 → u = 500000) := by
  refine ⟨?_, ?_, ?_⟩
  · intro env hb len fuel v tr h
    exact readRetry_ne_zero env hb len fuel 0 0 v tr (by simpa [readOp] using h)
  · intro len fuel
    simpa [readOp] using readRetry_allZero len fuel 0 0
  · intro env len fuel u h
    exact readRetry_pause env len fuel 0 0 u (by simpa [readOp] using h)

/-- Witness for C2: in an environment whose first read yields zero, whose
re-initialization succeeds at once, and whose second read yields 7 bytes,
Read returns 7, which is nonzero. -/
theorem read_never_returns_zero_witness : (7 : Nat) ≠ 0 :=
  read_never_returns_zero.1 envW
    (by intro n; constructor <;> (simp only [envW]; split <;> omega)) 1 3 7
    [SysEvent.readCall 0 1, SysEvent.initAttempt 0, SysEvent.readCall 1 1] (by decide)

/-- Claim C3 (confirmed): if Init fails at the open step (negative
descriptor from open) or at the configuration step (tcgetattr or tcsetattr
failing), it reports false, the close call appears in its trace before
returning, and the resulting handle is the invalid descriptor -1. -/
theorem init_failure_releases_handle (ch : SerialChannel) (o : OsOracle) (st : SerialState)
    (h : o.openFd < 0 ∨ configDevice ch o = ConfigOutcome.getattrFailed
      ∨ ∃ t, configDevice ch o = ConfigOutcome.setattrFailed t) :
    ∃ st2 tr, init ch o st = some (false, st2, tr)
      ∧ st2.serial_fd = -1 ∧ SysEvent.closeCall ∈ tr := by
  by_cases ho : o.openFd < 0
  · refine ⟨{ st with serial_fd := -1 }, [SysEvent.openCall, SysEvent.closeCall], ?_, rfl, by simp⟩
    simp [init, openDevice, closeDevice, ho]
  · rcases h with ho' | hc | ⟨t, hc⟩
    · omega
    · refine ⟨{ st with serial_fd := -1 }, [SysEvent.openCall, SysEvent.closeCall], ?_, rfl, by simp⟩
      simp [init, openDevice, closeDevice, ho, hc]
    · refine ⟨{ st with serial_fd := -1, new_termios := t },
        [SysEvent.openCall, SysEvent.closeCall], ?_, rfl, by simp⟩
      simp [init, openDevice, closeDevice, ho, hc]

/-- Witness for C3: on a nonexistent device path open(2) returns -1, and
Init on a fresh channel reports failure with the handle left at -1 after a
close call. -/
theorem init_failure_releases_handle_witness :
    ∃ st2 tr, init (mkSerial "/dev/ttyUSB0" 115200) oFail st0 = some (false, st2, tr)
      ∧ st2.serial_fd = -1 ∧ SysEvent.closeCall ∈ tr :=
  init_failure_releases_handle (mkSerial "/dev/ttyUSB0" 115200) oFail st0 (Or.inl (by decide))

/-- Claim C4 (confirmed): the std_rate table is strictly ascending; 115200
matches at index 5, whose st_baud entry is B115200, and ConfigDevice then
installs B115200 as both input and output speed with Init succeeding; the
unsupported rate 999999 matches no entry, both speeds stay at the memset
value 0 (unset), and Init still succeeds. -/
theorem baud_scan_first_match_and_no_match :
    List.Pairwise (· < ·) std_rate
    ∧ matchIndex 115200 = some 5
    ∧ std_rate.get? 5 = some 115200
    ∧ st_baud.get? 5 = some B115200
    ∧ (∃ t, configDevice (mkSerial "/dev/ttyUSB0" 115200) oGood = ConfigOutcome.configured t
        ∧ t.c_ispeed = B115200 ∧ t.c_ospeed = B115200)
    ∧ (∃ st2 tr, init (mkSerial "/dev/ttyUSB0" 115200) oGood st0 = some (true, st2, tr)
        ∧ st2.new_termios.c_ispeed = B115200 ∧ st2.new_termios.c_ospeed = B115200)
    ∧ matchIndex 999999 = none
    ∧ (∃ st2 tr, init (mkSerial "/dev/ttyUSB0" 999999) oGood st0 = some (true, st2, tr)
        ∧ st2.new_termios.c_ispeed = 0 ∧ st2.new_termios.c_ospeed = 0) := by
  refine ⟨by decide, by decide, by decide, by decide, ?_, ?_, by decide, ?_⟩
  · exact ⟨⟨2224, 0, 0, 4098, 4098, 1, 18⟩, by decide, by decide, by decide⟩
  · exact ⟨⟨3, ⟨2224, 0, 0, 4098, 4098, 1, 18⟩⟩, [SysEvent.openCall],
      by decide, by decide, by decide⟩
  · exact ⟨⟨3, ⟨2224, 0, 0, 0, 0, 1, 18⟩⟩, [SysEvent.openCall],
      by decide, by decide, by decide⟩

/-- Claim C5, counterexample: an enumerated record for the device node
/dev/ttyACM0 stores only the short name ttyACM0, so its rendering starts
with the short name and is not the line led by the fully qualified device
path that the claim asserts. -/
theorem render_not_fully_qualified_cex :
    listPort fs8 = Except.ok [rec8]
    ∧ renderSerialInfo rec8 = "ttyACM0, 1a2b:0003, M, ProdX, SN1"
    ∧ renderSerialInfo rec8 ≠ "/dev/ttyACM0, 1a2b:0003, M, ProdX, SN1" :=
  ⟨rfl, rfl, by decide⟩

/-- Claim C5, amended (corrected): rendering produces the single line
port_name, productID:vendorID, manufacturer, product, serial_number with
the ids as 4-digit lowercase hex and the first field the record's stored
port name -- for enumerated records the short node name, not the fully
qualified path; a record whose port name holds "/dev/ttyACM0" with
product_id 0x0010, vendor_id 0x2341 and manufacturer "Arduino" renders as
the claimed line. -/
theorem render_line_format_amended :
    renderSerialInfo arduinoRec = "/dev/ttyACM0, 0010:2341, Arduino, ProdY, SN9"
    ∧ hex4 16 = "0010" ∧ hex4 9025 = "2341" ∧ hex4 6699 = "1a2b" ∧ hex4 0 = "0000"
    ∧ listPort fs8 = Except.ok [rec8] ∧ rec8.port_name = "ttyACM0" :=
  ⟨rfl, rfl, rfl, rfl, rfl, rfl, rfl⟩

/-- Claim C6 (confirmed): Read with a null buffer returns the failure
sentinel (size_t)(-1) = 2^64 - 1 for every length and fuel, with an empty
system-call trace: no underlying call is issued. -/
theorem read_null_buffer_fails_without_syscall (env : ReadEnv) (len fuel : Nat) :
    readOp env true len fuel = (some (size_t_of (-1)), []) ∧ size_t_of (-1) = 2 ^ 64 - 1 :=
  ⟨rfl, by decide⟩

/-- Claim C7 (confirmed): Write issues exactly one write(2) call with the
given length, and returns the byte count when the call accepts bytes, or
the sentinel reinterpretation of -1 when it fails; no retry appears in the
trace. -/
theorem write_single_call (wr : Int) (len : Nat) :
    (writeOp wr len).2 = [SysEvent.writeCall len]
    ∧ (0 ≤ wr → wr < 2 ^ 63 → (writeOp wr len).1 = wr.toNat)
    ∧ (wr = -1 → (writeOp wr len).1 = 2 ^ 64 - 1) := by
  refine ⟨rfl, ?_, ?_⟩
  · intro h1 h2
    simp only [writeOp, size_t_of]
    omega
  · intro h
    subst h
    simp only [writeOp, size_t_of]
    omega

/-- Witness for C7 at a successful five-byte write and at a failed write. -/
theorem write_single_call_witness :
    (writeOp 5 3).2 = [SysEvent.writeCall 3] ∧ (writeOp 5 3).1 = (5 : Int).toNat
      ∧ (writeOp (-1) 3).1 = 2 ^ 64 - 1 :=
  by
  refine ⟨(write_single_call 5 3).1, (write_single_call 5 3).2.1 (by decide) (by decide), ?_⟩
  exact (write_single_call (-1) 3).2.2 rfl

/-- Claim C8 (confirmed): on a valid identity subtree with idProduct
"1a2b" and idVendor "0003", the enumerated record has product_id
0x1A2B = 6699 and vendor_id 3: the id files are parsed base-16. -/
theorem listPort_parses_hex_ids :
    listPort fs8 = Except.ok [rec8] ∧ rec8.product_id = 6699 ∧ rec8.vendor_id = 3
      ∧ stoul16 "1a2b" = Except.ok 6699 ∧ stoul16 "0003" = Except.ok 3 :=
  ⟨rfl, rfl, rfl, rfl, rfl⟩

/-- Claim C9 (code_bug): the baud scan runs over the eleven std_rate
entries, but st_baud has only eight; the supported-by-scan rate 1000000
matches at index 8, for which st_baud has no entry, so the source reads
st_baud[8] out of bounds (undefined behavior), which the model reports as
the oobRead outcome and as the undefined result of Init. -/
theorem baud_match_index_out_of_bounds :
    matchIndex 1000000 = some 8 ∧ st_baud.length = 8 ∧ st_baud.get? 8 = none
    ∧ configDevice (mkSerial "/dev/ttyUSB0" 1000000) oGood = ConfigOutcome.oobRead 8
    ∧ init (mkSerial "/dev/ttyUSB0" 1000000) oGood st0 = none := by
  decide

/-- Claim C10 (code_bug): no control path of operator<< for SerialInfo
executes a return statement (the source body ends without one), so the
function never produces the stream reference the claim says it returns on
every invocation. -/
theorem operator_insert_no_return (s : SerialInfo) :
    (operatorInsert s).2 = none := rfl

end SerialLite
